import Mathlib

/-!
Verification of the message model (`src/message.py`) and the event bus
(`src/event_bus.py`) of the repository, as a shallow embedding in Lean.

Modelling conventions:
* Python `dict` values used as message payloads (`content`, `metadata`) are
  modelled as insertion-ordered association lists `List (String × Val)`,
  where `Val` is a scalar value type standing for Python's `Any` (the claims
  are parametric in the stored values, so scalars suffice).
* `uuid.uuid4()` and `time.time()` default factories are modelled by passing
  the fresh identifier / timestamp explicitly as extra arguments of the
  operations that call them in the source.
* Python exceptions are modelled by `Except PyErr`; the spec's
  `ValidationError` corresponds to the source's `ValueError`.
* Timestamps (`time.time()` floats) are modelled as `Int`: no claim computes
  with them, they are only stored and compared.
-/

deriving instance DecidableEq for Except

/-- Scalar payload value, standing for Python `Any` in `content`/`metadata`
dictionaries. -/
inductive Val where
  | vnull
  | vbool (b : Bool)
  | vint (n : Int)
  | vstr (s : String)
deriving DecidableEq, Repr

/-- Python exception values that the embedded operations can raise. -/
inductive PyErr where
  | keyError
  | indexError
  | valueError (msg : String)
  | runtimeError (msg : String)
deriving DecidableEq, Repr

/-- `MessageType` enum from `src/message.py` (lines 12-45). -/
inductive MessageType where
  | AUDIO_CAPTURED
  | TRANSCRIPTION_COMPLETE
  | SEMANTIC_ANALYSIS_COMPLETE
  | INTENT_CLASSIFIED
  | THEME_DETECTED
  | DECISIONS_EXTRACTED
  | ACTION_ITEMS_EXTRACTED
  | RISKS_EXTRACTED
  | SUMMARY_GENERATED
  | TASK_CREATED
  | TASK_UPDATED
  | REMINDER_SENT
  | ESCALATION_TRIGGERED
  | ERROR
  | LOG
  | SYSTEM_COMMAND
  | CONFIG_UPDATED
  | MEMORY_STORED
  | MEMORY_RETRIEVED
  | CONTEXT_UPDATED
deriving DecidableEq, Repr

namespace MessageType

/-- Python's `member.name` for the `MessageType` enum. -/
def name : MessageType → String
  | .AUDIO_CAPTURED => "AUDIO_CAPTURED"
  | .TRANSCRIPTION_COMPLETE => "TRANSCRIPTION_COMPLETE"
  | .SEMANTIC_ANALYSIS_COMPLETE => "SEMANTIC_ANALYSIS_COMPLETE"
  | .INTENT_CLASSIFIED => "INTENT_CLASSIFIED"
  | .THEME_DETECTED => "THEME_DETECTED"
  | .DECISIONS_EXTRACTED => "DECISIONS_EXTRACTED"
  | .ACTION_ITEMS_EXTRACTED => "ACTION_ITEMS_EXTRACTED"
  | .RISKS_EXTRACTED => "RISKS_EXTRACTED"
  | .SUMMARY_GENERATED => "SUMMARY_GENERATED"
  | .TASK_CREATED => "TASK_CREATED"
  | .TASK_UPDATED => "TASK_UPDATED"
  | .REMINDER_SENT => "REMINDER_SENT"
  | .ESCALATION_TRIGGERED => "ESCALATION_TRIGGERED"
  | .ERROR => "ERROR"
  | .LOG => "LOG"
  | .SYSTEM_COMMAND => "SYSTEM_COMMAND"
  | .CONFIG_UPDATED => "CONFIG_UPDATED"
  | .MEMORY_STORED => "MEMORY_STORED"
  | .MEMORY_RETRIEVED => "MEMORY_RETRIEVED"
  | .CONTEXT_UPDATED => "CONTEXT_UPDATED"

/-- Python's `MessageType[s]` member lookup by name: `some` member on a
recognized name, `none` where Python raises `KeyError`. -/
def fromName : String → Option MessageType
  | "AUDIO_CAPTURED" => some .AUDIO_CAPTURED
  | "TRANSCRIPTION_COMPLETE" => some .TRANSCRIPTION_COMPLETE
  | "SEMANTIC_ANALYSIS_COMPLETE" => some .SEMANTIC_ANALYSIS_COMPLETE
  | "INTENT_CLASSIFIED" => some .INTENT_CLASSIFIED
  | "THEME_DETECTED" => some .THEME_DETECTED
  | "DECISIONS_EXTRACTED" => some .DECISIONS_EXTRACTED
  | "ACTION_ITEMS_EXTRACTED" => some .ACTION_ITEMS_EXTRACTED
  | "RISKS_EXTRACTED" => some .RISKS_EXTRACTED
  | "SUMMARY_GENERATED" => some .SUMMARY_GENERATED
  | "TASK_CREATED" => some .TASK_CREATED
  | "TASK_UPDATED" => some .TASK_UPDATED
  | "REMINDER_SENT" => some .REMINDER_SENT
  | "ESCALATION_TRIGGERED" => some .ESCALATION_TRIGGERED
  | "ERROR" => some .ERROR
  | "LOG" => some .LOG
  | "SYSTEM_COMMAND" => some .SYSTEM_COMMAND
  | "CONFIG_UPDATED" => some .CONFIG_UPDATED
  | "MEMORY_STORED" => some .MEMORY_STORED
  | "MEMORY_RETRIEVED" => some .MEMORY_RETRIEVED
  | "CONTEXT_UPDATED" => some .CONTEXT_UPDATED
  | _ => none

theorem fromName_name (t : MessageType) : fromName (name t) = some t := by
  cases t <;> rfl

end MessageType

/-- Lookup in a Python-dict model: value of the first entry whose key equals
`k`, `none` if absent. -/
def lookupVal : List (String × Val) → String → Option Val
  | [], _ => none
  | (k', v) :: rest, k => if k' = k then some v else lookupVal rest k

/-- Key-membership test in a Python-dict model (`k in d`). -/
def hasKey : List (String × Val) → String → Bool
  | [], _ => false
  | (k', _) :: rest, k => if k' = k then true else hasKey rest k

/-- Replace the value stored under key `k` (all entries with that key),
keeping insertion order, as Python `d[k] = v` does for a present key. -/
def replaceKey : List (String × Val) → String → Val → List (String × Val)
  | [], _, _ => []
  | (k', v') :: rest, k, v =>
      if k' = k then (k, v) :: replaceKey rest k v
      else (k', v') :: replaceKey rest k v

/-- Python `d[k] = v`: update in place when the key exists, append at the
tail otherwise. -/
def setKey (d : List (String × Val)) (k : String) (v : Val) :
    List (String × Val) :=
  if hasKey d k then replaceKey d k v else d ++ [(k, v)]

/-- Python `d.update(u)` applied entry by entry in `u`'s order. -/
def dictUpdate (d u : List (String × Val)) : List (String × Val) :=
  u.foldl (fun acc kv => setKey acc kv.1 kv.2) d

/-- `Message` dataclass from `src/message.py` (lines 48-76), with `type`
already validated to an enum member.  The derived `type_name` attribute set
by `__post_init__` always equals `type.name` and is not stored separately. -/
structure Message where
  type : MessageType
  content : List (String × Val)
  sender : Option String
  recipient : Option String
  timestamp : Int
  message_id : String
  parent_id : Option String
  context_id : Option String
  thread_id : Option String
  priority : Int
  ttl : Option Int
  metadata : List (String × Val)
deriving DecidableEq, Repr

/-- The dynamically-typed `type` argument of the `Message` constructor:
either a `MessageType` member or a plain string. -/
inductive TypeArg where
  | enum (t : MessageType)
  | str (s : String)
deriving DecidableEq, Repr

/-- `Message.__post_init__` (src/message.py lines 78-89): an enum member is
accepted as-is; a string is looked up in `MessageType`, raising
`ValueError` on an unrecognized name. -/
def postInitType : TypeArg → Except PyErr MessageType
  | .enum t => .ok t
  | .str s =>
      match MessageType.fromName s with
      | some t => .ok t
      | none => .error (.valueError ("Invalid message type: " ++ s))

/-- Constructing a `Message(type=..., content=..., ...)`, running the
`__post_init__` validation.  The `message_id` / `timestamp` default
factories are modelled by the explicit arguments. -/
def mkMessage (t : TypeArg) (content : List (String × Val))
    (sender recipient : Option String) (timestamp : Int) (message_id : String)
    (parent_id context_id thread_id : Option String) (priority : Int)
    (ttl : Option Int) (metadata : List (String × Val)) :
    Except PyErr Message :=
  match postInitType t with
  | .error e => .error e
  | .ok ty =>
      .ok { type := ty, content := content, sender := sender,
            recipient := recipient, timestamp := timestamp,
            message_id := message_id, parent_id := parent_id,
            context_id := context_id, thread_id := thread_id,
            priority := priority, ttl := ttl, metadata := metadata }

namespace Message

/-- `Message.with_content` (src/message.py lines 103-131): shallow-copies
`content`, applies the keyword updates, and builds a new message whose
`parent_id` is this message's id.  The new message's fresh
`message_id`/`timestamp` (dataclass default factories) are passed in as
`freshId`/`freshTs`. -/
def with_content (m : Message) (kwargs : List (String × Val))
    (freshId : String) (freshTs : Int) : Message :=
  { type := m.type
    content := dictUpdate m.content kwargs
    sender := m.sender
    recipient := m.recipient
    timestamp := freshTs
    message_id := freshId
    parent_id := some m.message_id
    context_id := m.context_id
    thread_id := m.thread_id
    priority := m.priority
    ttl := m.ttl
    metadata := m.metadata }

/-- `Message.create_reply` (src/message.py lines 133-154): swaps
sender/recipient, sets `parent_id`, copies context/thread/priority/metadata;
`ttl` is not passed, so the reply gets the dataclass default `None`. -/
def create_reply (m : Message) (message_type : MessageType)
    (content : List (String × Val)) (freshId : String) (freshTs : Int) :
    Message :=
  { type := message_type
    content := content
    sender := m.recipient
    recipient := m.sender
    timestamp := freshTs
    message_id := freshId
    parent_id := some m.message_id
    context_id := m.context_id
    thread_id := m.thread_id
    priority := m.priority
    ttl := none
    metadata := m.metadata }

end Message

/-- The plain mapping produced/consumed by `to_dict`/`from_dict`
(src/message.py lines 156-211).  Each field is `some v` when the key is
present in the dictionary (with stored value `v`) and `none` when absent,
so that `pop`/`get` key-presence semantics are modelled exactly.  The
`type` key stores either a name string or an enum member (`TypeArg`),
matching the `isinstance(msg_type, str)` test in `from_dict`. -/
structure MsgRecord where
  message_id : Option String
  type : Option TypeArg
  content : Option (List (String × Val))
  sender : Option (Option String)
  recipient : Option (Option String)
  timestamp : Option Int
  parent_id : Option (Option String)
  context_id : Option (Option String)
  thread_id : Option (Option String)
  priority : Option Int
  ttl : Option (Option Int)
  metadata : Option (List (String × Val))
deriving DecidableEq, Repr

namespace Message

/-- `Message.to_dict` (src/message.py lines 156-176): every key is present;
`type` stores `self.type_name`, the enum member's name string. -/
def to_dict (m : Message) : MsgRecord :=
  { message_id := some m.message_id
    type := some (TypeArg.str m.type.name)
    content := some m.content
    sender := some m.sender
    recipient := some m.recipient
    timestamp := some m.timestamp
    parent_id := some m.parent_id
    context_id := some m.context_id
    thread_id := some m.thread_id
    priority := some m.priority
    ttl := some m.ttl
    metadata := some m.metadata }

/-- `Message.from_dict` (src/message.py lines 178-211).  Returns the result
together with the input mapping as left after the call: `data.pop("type")`
MUTATES the caller's dictionary, which the second component records.  A
missing `type` key makes `pop` raise `KeyError`; an unrecognized name
string raises `ValueError`.  `nowTs`/`freshId` model the
`time.time()`/`uuid.uuid4()` defaults used for absent keys. -/
def from_dict (data : MsgRecord) (nowTs : Int) (freshId : String) :
    Except PyErr Message × MsgRecord :=
  match data.type with
  | none => (.error .keyError, data)
  | some ta =>
      let d := { data with type := none }
      let build : MessageType → Message := fun t =>
        { type := t
          content := d.content.getD []
          sender := d.sender.getD none
          recipient := d.recipient.getD none
          timestamp := d.timestamp.getD nowTs
          message_id := d.message_id.getD freshId
          parent_id := d.parent_id.getD none
          context_id := d.context_id.getD none
          thread_id := d.thread_id.getD none
          priority := d.priority.getD 0
          ttl := d.ttl.getD none
          metadata := d.metadata.getD [] }
      match ta with
      | .str s =>
          match MessageType.fromName s with
          | none => (.error (.valueError ("Invalid message type: " ++ s)), d)
          | some t => (.ok (build t), d)
      | .enum t => (.ok (build t), d)

end Message

/-! ## Event bus (`src/event_bus.py`) -/

/-- A subscriber callback (`Callable[[Message], None]`): it may raise, which
the model records as `Except.error` carrying the exception text `str(e)`. -/
def Callback := Message → Except String Unit

/-- A key of the `self.subscribers` dictionary.  `subscribe` is annotated to
take a string, but `publish` indexes the dictionary with `message.type`, a
`MessageType` enum member; the dictionary itself accepts either, so the key
type is their sum. -/
inductive BusKey where
  | str (s : String)
  | etype (t : MessageType)
deriving DecidableEq, Repr

/-- State of an `EventBus` instance (src/event_bus.py lines 23-49).
`subscribers` is the insertion-ordered `defaultdict(list)`;
`pending` holds the coroutine invocations handed to the event loop by
`asyncio.run_coroutine_threadsafe` and not yet executed (the loop created in
`__init__` is never run in the repository, and `shutdown` cancels them);
`executorShutdown`/`loopClosed` record `executor.shutdown()` and
`loop.close()`.  The `max_workers` pool size never influences the modelled
operations and is omitted. -/
structure BusState where
  subscribers : List (BusKey × List (String × Callback))
  max_history_size : Nat
  message_history : List Message
  pending : List (Callback × Message)
  executorShutdown : Bool
  loopClosed : Bool

/-- A freshly constructed `EventBus` with
`max_history_size = config.get("max_history_size", 1000)`. -/
def initBus (max_history_size : Nat) : BusState :=
  { subscribers := []
    max_history_size := max_history_size
    message_history := []
    pending := []
    executorShutdown := false
    loopClosed := false }

/-- Lookup of a key in the `subscribers` dictionary (`k in d` plus `d[k]`);
`none` models key absence. -/
def lookupReg (reg : List (BusKey × List (String × Callback))) (k : BusKey) :
    Option (List (String × Callback)) :=
  match reg with
  | [] => none
  | (k', subs) :: rest => if k' = k then some subs else lookupReg rest k

/-- `defaultdict` append `self.subscribers[event_type].append(entry)`: an
existing key keeps its position and gets the entry at the tail of its list;
a new key is appended at the dictionary's tail. -/
def addSub (reg : List (BusKey × List (String × Callback))) (k : BusKey)
    (entry : String × Callback) : List (BusKey × List (String × Callback)) :=
  match reg with
  | [] => [(k, [entry])]
  | (k', subs) :: rest =>
      if k' = k then (k', subs ++ [entry]) :: rest
      else (k', subs) :: addSub rest k entry

/-- `EventBus.subscribe` (src/event_bus.py lines 51-65); the
`uuid.uuid4()` subscription id is passed in as `freshSid` and returned. -/
def subscribe (bus : BusState) (event_type : BusKey) (cb : Callback)
    (freshSid : String) : BusState × String :=
  ({ bus with subscribers := addSub bus.subscribers event_type (freshSid, cb) },
   freshSid)

/-- The history-recording step of `EventBus.publish`
(src/event_bus.py lines 109-112): `pop(0)` of the oldest entry when the
buffer has reached `max_history_size`, then append at the tail.  `pop(0)`
on an empty list (only possible when `max_history_size = 0`) raises
`IndexError`. -/
def recordHistory (h : List Message) (maxSize : Nat) (m : Message) :
    Except PyErr (List Message) :=
  if maxSize ≤ h.length then
    match h with
    | [] => .error .indexError
    | _ :: t => .ok (t ++ [m])
  else .ok (h ++ [m])

/-- The `for _, callback in self.subscribers[event_type]` loop of `publish`
(src/event_bus.py lines 124-128): each iteration calls
`asyncio.run_coroutine_threadsafe(self._async_call_subscriber(cb, m), loop)`,
which schedules the invocation on the loop — or raises
`RuntimeError("Event loop is closed")` if the loop has been closed,
aborting the loop at that iteration. -/
def submitAll (bus : BusState) (subs : List (String × Callback))
    (m : Message) : BusState × Except PyErr Unit :=
  match subs with
  | [] => (bus, .ok ())
  | (_, cb) :: rest =>
      if bus.loopClosed then
        (bus, .error (.runtimeError "Event loop is closed"))
      else
        submitAll { bus with pending := bus.pending ++ [(cb, m)] } rest m

/-- `EventBus.publish` (src/event_bus.py lines 98-128).  The argument is
typed `Message`, so the `isinstance` guard at lines 105-107 always passes.
The message is recorded in history first; then the subscriber list is
looked up under the key `message.type` (the ENUM member) and one
invocation per entry is handed to the event loop. -/
def publish (bus : BusState) (m : Message) : BusState × Except PyErr Unit :=
  match recordHistory bus.message_history bus.max_history_size m with
  | .error e => (bus, .error e)
  | .ok h =>
      match lookupReg bus.subscribers (BusKey.etype m.type) with
      | none => ({ bus with message_history := h }, .ok ())
      | some subs => submitAll { bus with message_history := h } subs m

/-- Folding `publish` over a list of messages, keeping the state. -/
def publishAll (bus : BusState) (ms : List Message) : BusState :=
  ms.foldl (fun b m => (publish b m).1) bus

/-- `EventBus._async_call_subscriber` (src/event_bus.py lines 130-145): the
executed invocation runs `callback(message)` and catches any exception,
producing the log line `"Error in subscriber callback: " + str(e)` (and no
other observable effect).  Note the function receives no subscription id
and the log text does not use `message`. -/
def asyncCallSubscriber (cb : Callback) (m : Message) : Option String :=
  match cb m with
  | .ok _ => none
  | .error e => some ("Error in subscriber callback: " ++ e)

/-- Executing a batch of scheduled invocations: each runs independently
through `_async_call_subscriber`, yielding its own optional error-log
entry. -/
def runPending (ts : List (Callback × Message)) : List (Option String) :=
  ts.map fun t => asyncCallSubscriber t.1 t.2

/-- `EventBus.get_recent_messages` (src/event_bus.py lines 147-157):
`self.message_history[-limit:] if self.message_history else []`.  For a
natural `limit`, the Python slice `h[-limit:]` is the whole list when
`limit = 0` (since `-0 == 0`) and the last `limit` elements otherwise. -/
def get_recent_messages (bus : BusState) (limit : Nat) : List Message :=
  if bus.message_history.isEmpty then []
  else if limit = 0 then bus.message_history
  else bus.message_history.drop (bus.message_history.length - limit)

/-- `EventBus.shutdown` (src/event_bus.py lines 159-170): shuts the executor
down, cancels every task still pending on the loop, and closes the loop. -/
def shutdown (bus : BusState) : BusState :=
  { bus with executorShutdown := true, pending := [], loopClosed := true }

/-- Subscriber list registered under a key, `[]` when the key is absent
(what the dispatch loop effectively iterates over). -/
def subsFor (bus : BusState) (k : BusKey) : List (String × Callback) :=
  (lookupReg bus.subscribers k).getD []

/-! ## Concrete sample data used by witnesses and counterexamples -/

/-- A concrete message with every optional field populated. -/
def msgA : Message :=
  { type := .AUDIO_CAPTURED
    content := [("a", .vint 0), ("b", .vint 2)]
    sender := some "agent-1"
    recipient := some "agent-2"
    timestamp := 100
    message_id := "m-a"
    parent_id := some "m-0"
    context_id := some "meeting-7"
    thread_id := some "th-1"
    priority := 2
    ttl := some 60
    metadata := [("k", .vstr "v")] }

/-- A concrete message with every optional field absent. -/
def msgB : Message :=
  { type := .LOG
    content := []
    sender := none
    recipient := none
    timestamp := 200
    message_id := "m-b"
    parent_id := none
    context_id := none
    thread_id := none
    priority := 0
    ttl := none
    metadata := [] }

/-- A third concrete message, used to fill history buffers. -/
def msgC : Message :=
  { type := .ERROR
    content := [("err", .vstr "x")]
    sender := none
    recipient := some "agent-1"
    timestamp := 300
    message_id := "m-c"
    parent_id := none
    context_id := none
    thread_id := none
    priority := 5
    ttl := none
    metadata := [] }

/-- A callback that returns normally. -/
def cbOk : Callback := fun _ => .ok ()

/-- A second callback that returns normally. -/
def cbOk2 : Callback := fun _ => .ok ()

/-- A callback that always raises, with exception text `"boom"`. -/
def cbBoom : Callback := fun _ => .error "boom"

/-- The total history step of `publish`: evict-oldest-then-append when full,
plain append otherwise (the non-raising behavior of `recordHistory`). -/
def histStep (h : List Message) (maxSize : Nat) (m : Message) : List Message :=
  if maxSize ≤ h.length then h.tail ++ [m] else h ++ [m]

/-- A bus with one subscription registered under the string name
`"AUDIO_CAPTURED"` — exactly what `BaseAgent.register` produces from
`get_subscribed_events` (src/transcriber_agent.py returns
`MessageType.AUDIO_CAPTURED.name`). -/
def busStrSub : BusState :=
  (subscribe (initBus 1000) (BusKey.str "AUDIO_CAPTURED") cbOk "sid-1").1

/-- A shut-down bus that had one subscription registered under the enum key
`MessageType.AUDIO_CAPTURED`. -/
def busC1W : BusState :=
  shutdown (subscribe (initBus 3) (BusKey.etype MessageType.AUDIO_CAPTURED) cbOk "sid-1").1

/-- A bus holding one published message in its history. -/
def busOneMsg : BusState := (publish (initBus 1000) msgA).1

/-- The record of `msgA` with its stored kind replaced by an unrecognized
name. -/
def recBad : MsgRecord :=
  { Message.to_dict msgA with type := some (TypeArg.str "NOT_A_KIND") }


/-! ## Helper lemmas about the bus operations -/

lemma recordHistory_ok (h : List Message) (N : Nat) (m : Message) (hN : 1 ≤ N) :
    recordHistory h N m = .ok (histStep h N m) := by
  unfold recordHistory histStep
  by_cases hf : N ≤ h.length
  · cases h with
    | nil => exfalso; simp at hf; omega
    | cons x t => rw [if_pos hf, if_pos hf]; rfl
  · rw [if_neg hf, if_neg hf]

lemma submitAll_fst (subs : List (String × Callback)) :
    ∀ (b : BusState) (m : Message),
      (submitAll b subs m).1.message_history = b.message_history ∧
      (submitAll b subs m).1.max_history_size = b.max_history_size ∧
      (submitAll b subs m).1.loopClosed = b.loopClosed ∧
      (submitAll b subs m).1.subscribers = b.subscribers := by
  induction subs with
  | nil => intro b m; exact ⟨rfl, rfl, rfl, rfl⟩
  | cons p rest ih =>
      intro b m
      obtain ⟨sid, cb⟩ := p
      by_cases hc : b.loopClosed
      · simp [submitAll, hc]
      · simpa [submitAll, hc] using
          ih { b with pending := b.pending ++ [(cb, m)] } m

lemma submitAll_open (subs : List (String × Callback)) :
    ∀ (b : BusState) (m : Message), b.loopClosed = false →
      submitAll b subs m =
        ({ b with pending := b.pending ++ subs.map fun p => (p.2, m) },
         Except.ok ()) := by
  induction subs with
  | nil => intro b m hb; simp [submitAll]
  | cons p rest ih =>
      intro b m hb
      obtain ⟨sid, cb⟩ := p
      rw [submitAll, if_neg (by simp [hb])]
      rw [ih { b with pending := b.pending ++ [(cb, m)] } m (by simp [hb])]
      simp

lemma submitAll_closed (subs : List (String × Callback)) (b : BusState)
    (m : Message) (hb : b.loopClosed = true) (hne : subs ≠ []) :
    submitAll b subs m = (b, Except.error (PyErr.runtimeError "Event loop is closed")) := by
  cases subs with
  | nil => exact absurd rfl hne
  | cons p rest =>
      obtain ⟨sid, cb⟩ := p
      rw [submitAll, if_pos hb]

lemma publish_fst_max (bus : BusState) (m : Message) :
    (publish bus m).1.max_history_size = bus.max_history_size := by
  unfold publish
  cases hrec : recordHistory bus.message_history bus.max_history_size m with
  | error e => rfl
  | ok h =>
      cases hl : lookupReg bus.subscribers (BusKey.etype m.type) with
      | none => rfl
      | some subs => exact (submitAll_fst subs { bus with message_history := h } m).2.1

lemma publish_fst_history (bus : BusState) (m : Message)
    (hN : 1 ≤ bus.max_history_size) :
    (publish bus m).1.message_history =
      histStep bus.message_history bus.max_history_size m := by
  unfold publish
  cases hrec : recordHistory bus.message_history bus.max_history_size m with
  | error e => rw [recordHistory_ok _ _ _ hN] at hrec; simp at hrec
  | ok h =>
      rw [recordHistory_ok _ _ _ hN] at hrec
      injection hrec with hh
      subst hh
      cases hl : lookupReg bus.subscribers (BusKey.etype m.type) with
      | none => rfl
      | some subs => exact (submitAll_fst subs _ m).1

lemma publish_snd_open (bus : BusState) (m : Message)
    (hopen : bus.loopClosed = false) (hN : 1 ≤ bus.max_history_size) :
    (publish bus m).2 = Except.ok () := by
  unfold publish
  cases hrec : recordHistory bus.message_history bus.max_history_size m with
  | error e => rw [recordHistory_ok _ _ _ hN] at hrec; simp at hrec
  | ok h =>
      cases hl : lookupReg bus.subscribers (BusKey.etype m.type) with
      | none => rfl
      | some subs =>
          show (submitAll { bus with message_history := h } subs m).2 = Except.ok ()
          rw [submitAll_open subs _ m (by simp [hopen])]

lemma publish_pending_open (bus : BusState) (m : Message)
    (hopen : bus.loopClosed = false) (hN : 1 ≤ bus.max_history_size) :
    (publish bus m).1.pending =
      bus.pending ++ (subsFor bus (BusKey.etype m.type)).map fun p => (p.2, m) := by
  unfold publish
  cases hrec : recordHistory bus.message_history bus.max_history_size m with
  | error e => rw [recordHistory_ok _ _ _ hN] at hrec; simp at hrec
  | ok h =>
      cases hl : lookupReg bus.subscribers (BusKey.etype m.type) with
      | none => simp [subsFor, hl]
      | some subs =>
          show (submitAll { bus with message_history := h } subs m).1.pending =
            bus.pending ++ (subsFor bus (BusKey.etype m.type)).map fun p => (p.2, m)
          rw [submitAll_open subs _ m (by simp [hopen])]
          simp [subsFor, hl]

lemma histStep_drop (H : List Message) (N : Nat) (m : Message) (ms : List Message)
    (hN : 1 ≤ N) (hlen : H.length ≤ N) :
    List.drop ((histStep H N m ++ ms).length - N) (histStep H N m ++ ms) =
    List.drop ((H ++ m :: ms).length - N) (H ++ m :: ms) := by
  unfold histStep
  by_cases hf : N ≤ H.length
  · rw [if_pos hf]
    cases H with
    | nil => simp at hf; omega
    | cons x t =>
        have hlt : t.length + 1 = N := by simp at hlen hf; omega
        have e1 : (t ++ [m]) ++ ms = t ++ m :: ms := by
          rw [List.append_assoc]; rfl
        simp only [List.tail_cons, e1, List.cons_append]
        have i1 : (t ++ m :: ms).length - N = ms.length := by simp; omega
        have i2 : (x :: (t ++ m :: ms)).length - N = ms.length + 1 := by simp; omega
        rw [i1, i2, List.drop_succ_cons]
  · rw [if_neg hf, List.append_assoc]
    rfl

lemma histStep_length (H : List Message) (N : Nat) (m : Message)
    (hN : 1 ≤ N) (hlen : H.length ≤ N) :
    (histStep H N m).length ≤ N := by
  unfold histStep
  by_cases hf : N ≤ H.length
  · rw [if_pos hf]
    cases H with
    | nil => simp at hf; omega
    | cons x t => simp at hlen ⊢; omega
  · rw [if_neg hf]; simp; omega

lemma publishAll_history (ms : List Message) :
    ∀ (bus : BusState), 1 ≤ bus.max_history_size →
      bus.message_history.length ≤ bus.max_history_size →
      (publishAll bus ms).message_history =
        (bus.message_history ++ ms).drop
          ((bus.message_history ++ ms).length - bus.max_history_size) ∧
      (publishAll bus ms).max_history_size = bus.max_history_size := by
  induction ms with
  | nil =>
      intro bus hN hlen
      have hz : (bus.message_history).length - bus.max_history_size = 0 := by omega
      simp [publishAll, hz]
  | cons m ms ih =>
      intro bus hN hlen
      have hstep : (publishAll bus (m :: ms)) = publishAll (publish bus m).1 ms := rfl
      have hmax := publish_fst_max bus m
      have hhist := publish_fst_history bus m hN
      have hlen' : (publish bus m).1.message_history.length ≤
          (publish bus m).1.max_history_size := by
        rw [hmax, hhist]
        exact histStep_length _ _ _ hN hlen
      obtain ⟨h1, h2⟩ := ih (publish bus m).1 (by rw [hmax]; exact hN) hlen'
      rw [hhist] at h1
      rw [hmax] at h1 h2
      rw [hstep, h1, h2]
      exact ⟨histStep_drop bus.message_history bus.max_history_size m ms hN hlen, rfl⟩

/-! ## Helper lemmas about the dictionary model -/

lemma lookupVal_eq_none_of_not_mem (d : List (String × Val)) (k : String)
    (h : k ∉ d.map Prod.fst) : lookupVal d k = none := by
  induction d with
  | nil => rfl
  | cons p rest ih =>
      obtain ⟨pk, pv⟩ := p
      rw [List.map_cons, List.mem_cons] at h
      push_neg at h
      rw [lookupVal, if_neg (fun hh => h.1 hh.symm)]
      exact ih h.2

lemma lookupVal_eq_none_of_not_hasKey (d : List (String × Val)) (k : String)
    (h : hasKey d k = false) : lookupVal d k = none := by
  induction d with
  | nil => rfl
  | cons p rest ih =>
      obtain ⟨pk, pv⟩ := p
      rw [hasKey] at h
      by_cases hp : pk = k
      · rw [if_pos hp] at h; exact absurd h (by simp)
      · rw [if_neg hp] at h
        rw [lookupVal, if_neg hp]
        exact ih h

lemma lookupVal_replaceKey_ne (d : List (String × Val)) (k : String) (v : Val)
    (k' : String) (h : k' ≠ k) :
    lookupVal (replaceKey d k v) k' = lookupVal d k' := by
  induction d with
  | nil => rfl
  | cons p rest ih =>
      obtain ⟨pk, pv⟩ := p
      by_cases hp : pk = k
      · rw [replaceKey, if_pos hp, lookupVal, lookupVal, if_neg (fun hh => h hh.symm),
            if_neg (hp ▸ fun hh => h hh.symm)]
        exact ih
      · rw [replaceKey, if_neg hp, lookupVal, lookupVal]
        by_cases hk : pk = k'
        · rw [if_pos hk, if_pos hk]
        · rw [if_neg hk, if_neg hk]; exact ih

lemma lookupVal_replaceKey_self (d : List (String × Val)) (k : String) (v : Val)
    (h : hasKey d k = true) :
    lookupVal (replaceKey d k v) k = some v := by
  induction d with
  | nil => simp [hasKey] at h
  | cons p rest ih =>
      obtain ⟨pk, pv⟩ := p
      by_cases hp : pk = k
      · rw [replaceKey, if_pos hp, lookupVal, if_pos rfl]
      · rw [hasKey, if_neg hp] at h
        rw [replaceKey, if_neg hp, lookupVal, if_neg hp]
        exact ih h

lemma lookupVal_append (d e : List (String × Val)) (k : String) :
    lookupVal (d ++ e) k =
      match lookupVal d k with
      | some v => some v
      | none => lookupVal e k := by
  induction d with
  | nil => simp [lookupVal]
  | cons p rest ih =>
      obtain ⟨pk, pv⟩ := p
      by_cases hp : pk = k
      · simp [lookupVal, hp]
      · simp only [List.cons_append, lookupVal, if_neg hp]
        exact ih

lemma lookupVal_setKey (d : List (String × Val)) (k : String) (v : Val)
    (k' : String) :
    lookupVal (setKey d k v) k' = if k' = k then some v else lookupVal d k' := by
  unfold setKey
  by_cases hk : hasKey d k
  · rw [if_pos hk]
    by_cases he : k' = k
    · rw [if_pos he, he, lookupVal_replaceKey_self d k v hk]
    · rw [if_neg he, lookupVal_replaceKey_ne d k v k' he]
  · rw [if_neg (by simp [hk]), lookupVal_append]
    by_cases he : k' = k
    · rw [if_pos he, he, lookupVal_eq_none_of_not_hasKey d k (by simpa using hk)]
      simp [lookupVal]
    · rw [if_neg he]
      have : lookupVal [(k, v)] k' = none := by
        rw [lookupVal, if_neg (fun hh => he hh.symm)]; rfl
      rw [this]
      cases lookupVal d k' <;> rfl

lemma lookupVal_dictUpdate (u : List (String × Val)) :
    ∀ (d : List (String × Val)) (k : String), (u.map Prod.fst).Nodup →
      lookupVal (dictUpdate d u) k =
        match lookupVal u k with
        | some v => some v
        | none => lookupVal d k := by
  induction u with
  | nil => intro d k _; simp [dictUpdate, lookupVal]
  | cons p u ih =>
      intro d k hnd
      obtain ⟨pk, pv⟩ := p
      simp only [List.map_cons, List.nodup_cons] at hnd
      obtain ⟨hpk, hnd'⟩ := hnd
      have hfold : dictUpdate d ((pk, pv) :: u) = dictUpdate (setKey d pk pv) u := rfl
      rw [hfold, ih (setKey d pk pv) k hnd']
      by_cases hk : k = pk
      · subst hk
        have hun : lookupVal u k = none :=
          lookupVal_eq_none_of_not_mem u k hpk
        rw [hun, lookupVal_setKey, if_pos rfl, lookupVal, if_pos rfl]
      · rw [lookupVal, if_neg (fun hh => hk hh.symm)]
        cases hu : lookupVal u k with
        | some v => rfl
        | none => rw [lookupVal_setKey, if_neg hk]

/-! ## The claims -/

/-- C1, counterexample: publishing after `shutdown()` on a bus with no
subscribers raises nothing at all (no `BusClosedError` exists in the code)
and the message IS appended to the history buffer — both conjuncts of the
claim fail. -/
theorem publish_after_shutdown_cex :
    (publish (shutdown (initBus 1000)) msgA).2 = Except.ok () ∧
    (publish (shutdown (initBus 1000)) msgA).1.message_history = [msgA] :=
  ⟨by decide, rfl⟩

/-- C1, amended: calling `publish(m)` after `shutdown()` still appends `m`
at the tail of the history buffer (evicting the oldest entry when full),
so `m` is always the last recorded message; no `BusClosedError` is raised —
when no subscription is registered under the key `m.type`, publish returns
normally, and when at least one is, the first scheduling attempt raises
`RuntimeError("Event loop is closed")`, after `m` was already recorded. -/
theorem publish_after_shutdown_spec (bus : BusState) (m : Message)
    (hclosed : bus.loopClosed = true) (hN : 1 ≤ bus.max_history_size) :
    (publish bus m).1.message_history =
      histStep bus.message_history bus.max_history_size m ∧
    (publish bus m).1.message_history.getLast? = some m ∧
    (subsFor bus (BusKey.etype m.type) = [] → (publish bus m).2 = Except.ok ()) ∧
    (subsFor bus (BusKey.etype m.type) ≠ [] →
      (publish bus m).2 = Except.error (PyErr.runtimeError "Event loop is closed")) := by
  refine ⟨publish_fst_history bus m hN, ?_, ?_, ?_⟩
  · rw [publish_fst_history bus m hN]
    unfold histStep
    split <;> exact List.getLast?_concat _
  · intro hsub
    unfold publish
    cases hrec : recordHistory bus.message_history bus.max_history_size m with
    | error e => rw [recordHistory_ok _ _ _ hN] at hrec; simp at hrec
    | ok h =>
        cases hl : lookupReg bus.subscribers (BusKey.etype m.type) with
        | none => rfl
        | some subs =>
            have hs : subs = [] := by simpa [subsFor, hl] using hsub
            subst hs
            rfl
  · intro hsub
    unfold publish
    cases hrec : recordHistory bus.message_history bus.max_history_size m with
    | error e => rw [recordHistory_ok _ _ _ hN] at hrec; simp at hrec
    | ok h =>
        cases hl : lookupReg bus.subscribers (BusKey.etype m.type) with
        | none => exact absurd (by simp [subsFor, hl]) hsub
        | some subs =>
            have hs : subs ≠ [] := by
              intro hc
              exact hsub (by simp [subsFor, hl, hc])
            show (submitAll { bus with message_history := h } subs m).2 = _
            rw [submitAll_closed subs _ m (by simpa using hclosed) hs]

/-- C1 witness: the amended theorem applied to a concrete shut-down bus
holding one enum-keyed subscription. -/
theorem publish_after_shutdown_spec_witness :
    busC1W.loopClosed = true ∧ 1 ≤ busC1W.max_history_size ∧
    ((publish busC1W msgA).1.message_history =
        histStep busC1W.message_history busC1W.max_history_size msgA ∧
      (publish busC1W msgA).1.message_history.getLast? = some msgA ∧
      (subsFor busC1W (BusKey.etype msgA.type) = [] →
        (publish busC1W msgA).2 = Except.ok ()) ∧
      (subsFor busC1W (BusKey.etype msgA.type) ≠ [] →
        (publish busC1W msgA).2 =
          Except.error (PyErr.runtimeError "Event loop is closed"))) :=
  ⟨rfl, by decide, publish_after_shutdown_spec busC1W msgA rfl (by decide)⟩

/-- C2: for every Message `m` — with optional fields populated or absent —
`from_record(to_record(m))` succeeds and yields a Message equal to `m` in
every field (id, kind, payload, sender, recipient, created_at, parent_id,
context_id, thread_id, priority, time_to_live, metadata). -/
theorem from_dict_to_dict_roundtrip (m : Message) (now : Int) (fid : String) :
    (Message.from_dict (Message.to_dict m) now fid).1 = Except.ok m := by
  simp [Message.to_dict, Message.from_dict, MessageType.fromName_name]

/-- C3, failing input: a callback subscribed to kind `"AUDIO_CAPTURED"`
through the documented string-keyed `subscribe` API (exactly as
`BaseAgent.register` does) receives NO invocation when a message of kind
`AUDIO_CAPTURED` is published: `publish` indexes the registry with the
`MessageType` enum member `message.type`, which never equals the string
key, so the lookup misses and zero invocations are submitted. -/
theorem publish_misses_string_keyed_subscription :
    subsFor busStrSub (BusKey.str "AUDIO_CAPTURED") = [("sid-1", cbOk)] ∧
    msgA.type = MessageType.AUDIO_CAPTURED ∧
    (publish busStrSub msgA).1.pending = [] ∧
    (publish busStrSub msgA).2 = Except.ok () :=
  ⟨rfl, rfl, rfl, by decide⟩

/-- C4, counterexample: the log entry produced when a callback raises is
`"Error in subscriber callback: " + str(e)` — identical for two messages
with different identifiers, and `_async_call_subscriber` is not even passed
the subscription id; the claim that the exception is logged "with the
subscriber and message identifiers" is false. -/
theorem subscriber_error_log_lacks_identifiers :
    asyncCallSubscriber cbBoom msgA = some "Error in subscriber callback: boom" ∧
    asyncCallSubscriber cbBoom msgB = some "Error in subscriber callback: boom" ∧
    msgA.message_id ≠ msgB.message_id :=
  ⟨by decide, by decide, by decide⟩

/-- C4, amended: the dispatch engine catches a raising callback at the
per-invocation boundary and logs the exception text (only the text — neither
the subscriber nor the message identifier appears in the log); sibling
invocations before and after the failing one still execute and produce
their own results, and the publishing caller's `publish` call returns
normally regardless of callback behavior. -/
theorem dispatch_failure_containment (ts1 ts2 : List (Callback × Message))
    (cb : Callback) (m : Message) (e : String) (hr : cb m = Except.error e) :
    runPending (ts1 ++ (cb, m) :: ts2) =
      runPending ts1 ++ some ("Error in subscriber callback: " ++ e) :: runPending ts2 ∧
    ∀ bus : BusState, bus.loopClosed = false → 1 ≤ bus.max_history_size →
      (publish bus m).2 = Except.ok () := by
  constructor
  · simp [runPending, asyncCallSubscriber, hr]
  · intro bus h1 h2
    exact publish_snd_open bus m h1 h2

/-- C4 witness: the amended theorem applied to a concrete raising callback
between two well-behaved sibling invocations. -/
theorem dispatch_failure_containment_witness :
    cbBoom msgA = Except.error "boom" ∧
    (runPending ([(cbOk, msgB)] ++ (cbBoom, msgA) :: [(cbOk2, msgC)]) =
        runPending [(cbOk, msgB)] ++
          some ("Error in subscriber callback: " ++ "boom") :: runPending [(cbOk2, msgC)] ∧
      ∀ bus : BusState, bus.loopClosed = false → 1 ≤ bus.max_history_size →
        (publish bus msgA).2 = Except.ok ()) :=
  ⟨rfl, dispatch_failure_containment [(cbOk, msgB)] [(cbOk2, msgC)] cbBoom msgA "boom" rfl⟩

/-- C5: for every sequence of publishes into a fresh bus with history
capacity N ≥ 1, the history length never exceeds N and equals the last N
published messages in publish order (`drop (len - N)`); moreover each single
publish appends at the tail, evicting the oldest entry first when the
buffer is full. -/
theorem history_capacity_fifo (N : Nat) (ms : List Message) (hN : 1 ≤ N) :
    (publishAll (initBus N) ms).message_history.length ≤ N ∧
    (publishAll (initBus N) ms).message_history = ms.drop (ms.length - N) ∧
    ∀ (bus : BusState) (m : Message), bus.max_history_size = N →
      (publish bus m).1.message_history =
        if N ≤ bus.message_history.length
        then bus.message_history.tail ++ [m]
        else bus.message_history ++ [m] := by
  obtain ⟨h1, h2⟩ :=
    publishAll_history ms (initBus N) (by simpa [initBus] using hN) (by simp [initBus])
  have h1' : (publishAll (initBus N) ms).message_history = ms.drop (ms.length - N) := by
    rw [h1]; simp [initBus]
  refine ⟨?_, h1', ?_⟩
  · rw [h1', List.length_drop]; omega
  · intro bus m hbusN
    have hh := publish_fst_history bus m (by rw [hbusN]; exact hN)
    rw [hh]; unfold histStep; rw [hbusN]

/-- C5 witness: the theorem applied at capacity 2 with three concrete
published messages. -/
theorem history_capacity_fifo_witness :
    1 ≤ 2 ∧
    ((publishAll (initBus 2) [msgA, msgB, msgC]).message_history.length ≤ 2 ∧
      (publishAll (initBus 2) [msgA, msgB, msgC]).message_history =
        [msgA, msgB, msgC].drop ([msgA, msgB, msgC].length - 2) ∧
      ∀ (bus : BusState) (m : Message), bus.max_history_size = 2 →
        (publish bus m).1.message_history =
          if 2 ≤ bus.message_history.length
          then bus.message_history.tail ++ [m]
          else bus.message_history ++ [m]) :=
  ⟨by decide, history_capacity_fifo 2 [msgA, msgB, msgC] (by decide)⟩

/-- C6, counterexample: `recent(0)` on a one-message history returns the
whole buffer (Python `h[-0:]` is `h[0:]`), so its length exceeds the limit
0 — the claim fails for the non-negative limit 0. -/
theorem recent_limit_zero_returns_whole_buffer :
    get_recent_messages busOneMsg 0 = [msgA] ∧
    ¬ (get_recent_messages busOneMsg 0).length ≤ 0 :=
  ⟨by decide, by decide⟩

/-- C6, amended: for every POSITIVE limit, `recent(limit)` returns at most
`limit` messages — the most recently recorded suffix of the history,
newest-last; it returns `[]` on an empty history and the entire buffer when
`limit` is at least the buffer's size.  (For limit = 0 on a nonempty
history it returns the entire buffer instead of the empty sequence.) -/
theorem get_recent_messages_spec (bus : BusState) (limit : Nat) (hl : 1 ≤ limit) :
    (get_recent_messages bus limit).length ≤ limit ∧
    get_recent_messages bus limit =
      bus.message_history.drop (bus.message_history.length - limit) ∧
    (bus.message_history = [] → get_recent_messages bus limit = []) ∧
    (bus.message_history.length ≤ limit →
      get_recent_messages bus limit = bus.message_history) := by
  have hnz : ¬ limit = 0 := by omega
  unfold get_recent_messages
  by_cases he : bus.message_history.isEmpty
  · have hemp : bus.message_history = [] := by simpa [List.isEmpty_iff] using he
    rw [if_pos he]
    exact ⟨by simp, by simp [hemp], fun _ => rfl, fun _ => hemp.symm⟩
  · rw [if_neg he, if_neg hnz]
    refine ⟨?_, rfl, ?_, ?_⟩
    · rw [List.length_drop]; omega
    · intro hemp; rw [hemp] at he; simp at he
    · intro hlen
      have hz : bus.message_history.length - limit = 0 := by omega
      rw [hz, List.drop_zero]

/-- C6 witness: the amended theorem applied at limit 1 to a one-message
history. -/
theorem get_recent_messages_spec_witness :
    1 ≤ 1 ∧
    ((get_recent_messages busOneMsg 1).length ≤ 1 ∧
      get_recent_messages busOneMsg 1 =
        busOneMsg.message_history.drop (busOneMsg.message_history.length - 1) ∧
      (busOneMsg.message_history = [] → get_recent_messages busOneMsg 1 = []) ∧
      (busOneMsg.message_history.length ≤ 1 →
        get_recent_messages busOneMsg 1 = busOneMsg.message_history)) :=
  ⟨by decide, get_recent_messages_spec busOneMsg 1 (by decide)⟩

/-- C7: constructing a Message whose kind is a string naming no
`MessageType` member fails with the validation error (`ValueError`,
the spec's `ValidationError`), while construction with a recognized name
string or an enum member succeeds; and `from_record` on a record whose
stored kind is unrecognized fails with the same validation error. -/
theorem message_kind_validation (sBad sGood : String) (t tEnum : MessageType)
    (c : List (String × Val)) (sndr rcpt : Option String) (ts : Int)
    (mid : String) (pid cid tid : Option String) (pr : Int) (tl : Option Int)
    (md : List (String × Val)) (r : MsgRecord) (now : Int) (fid : String)
    (hBad : MessageType.fromName sBad = none)
    (hGood : MessageType.fromName sGood = some t)
    (hr : r.type = some (TypeArg.str sBad)) :
    mkMessage (TypeArg.str sBad) c sndr rcpt ts mid pid cid tid pr tl md =
      Except.error (PyErr.valueError ("Invalid message type: " ++ sBad)) ∧
    mkMessage (TypeArg.str sGood) c sndr rcpt ts mid pid cid tid pr tl md =
      Except.ok ⟨t, c, sndr, rcpt, ts, mid, pid, cid, tid, pr, tl, md⟩ ∧
    mkMessage (TypeArg.enum tEnum) c sndr rcpt ts mid pid cid tid pr tl md =
      Except.ok ⟨tEnum, c, sndr, rcpt, ts, mid, pid, cid, tid, pr, tl, md⟩ ∧
    (Message.from_dict r now fid).1 =
      Except.error (PyErr.valueError ("Invalid message type: " ++ sBad)) := by
  refine ⟨?_, ?_, rfl, ?_⟩
  · simp [mkMessage, postInitType, hBad]
  · simp [mkMessage, postInitType, hGood]
  · simp [Message.from_dict, hr, hBad]

/-- C7 witness: the theorem applied to the unrecognized name
`"NOT_A_KIND"`, the recognized name `"ERROR"`, the enum member `LOG`, and
a concrete record with an unrecognized stored kind. -/
theorem message_kind_validation_witness :
    MessageType.fromName "NOT_A_KIND" = none ∧
    MessageType.fromName "ERROR" = some MessageType.ERROR ∧
    recBad.type = some (TypeArg.str "NOT_A_KIND") ∧
    (mkMessage (TypeArg.str "NOT_A_KIND") [] none none 0 "id0" none none none 0 none [] =
        Except.error (PyErr.valueError ("Invalid message type: " ++ "NOT_A_KIND")) ∧
      mkMessage (TypeArg.str "ERROR") [] none none 0 "id0" none none none 0 none [] =
        Except.ok ⟨MessageType.ERROR, [], none, none, 0, "id0", none, none, none, 0, none, []⟩ ∧
      mkMessage (TypeArg.enum MessageType.LOG) [] none none 0 "id0" none none none 0 none [] =
        Except.ok ⟨MessageType.LOG, [], none, none, 0, "id0", none, none, none, 0, none, []⟩ ∧
      (Message.from_dict recBad 0 "f").1 =
        Except.error (PyErr.valueError ("Invalid message type: " ++ "NOT_A_KIND"))) :=
  ⟨by decide, by decide, by decide,
    message_kind_validation "NOT_A_KIND" "ERROR" MessageType.ERROR MessageType.LOG
      [] none none 0 "id0" none none none 0 none [] recBad 0 "f"
      (by decide) (by decide) (by decide)⟩

/-- C8: `with_content(u)` yields a message whose payload is the original
payload merged with `u` — a key of `u` looks up to `u`'s value, any other
key keeps the original's value — whose `parent_id` is the original's id,
and whose kind, context_id, thread_id, priority, ttl and metadata are
copied from the original (the embedding is pure, so the original message
itself is untouched). -/
theorem with_content_spec (m : Message) (u : List (String × Val))
    (fid : String) (fts : Int) (k : String)
    (hu : (u.map Prod.fst).Nodup) :
    (∀ v, lookupVal u k = some v →
        lookupVal (m.with_content u fid fts).content k = some v) ∧
    (lookupVal u k = none →
        lookupVal (m.with_content u fid fts).content k = lookupVal m.content k) ∧
    (m.with_content u fid fts).parent_id = some m.message_id ∧
    (m.with_content u fid fts).type = m.type ∧
    (m.with_content u fid fts).context_id = m.context_id ∧
    (m.with_content u fid fts).thread_id = m.thread_id ∧
    (m.with_content u fid fts).priority = m.priority ∧
    (m.with_content u fid fts).ttl = m.ttl ∧
    (m.with_content u fid fts).metadata = m.metadata := by
  have hmain := lookupVal_dictUpdate u m.content k hu
  refine ⟨?_, ?_, rfl, rfl, rfl, rfl, rfl, rfl, rfl⟩
  · intro v hv
    show lookupVal (dictUpdate m.content u) k = some v
    rw [hmain, hv]
  · intro hnone
    show lookupVal (dictUpdate m.content u) k = lookupVal m.content k
    rw [hmain, hnone]

/-- C8 witness: the theorem applied to `msgA` (payload a=0, b=2) with
update a=1, inspected at key "a". -/
theorem with_content_spec_witness :
    ([("a", Val.vint 1)].map Prod.fst).Nodup ∧
    ((∀ v, lookupVal [("a", Val.vint 1)] "a" = some v →
        lookupVal (msgA.with_content [("a", Val.vint 1)] "w-1" 500).content "a" = some v) ∧
      (lookupVal [("a", Val.vint 1)] "a" = none →
        lookupVal (msgA.with_content [("a", Val.vint 1)] "w-1" 500).content "a" =
          lookupVal msgA.content "a") ∧
      (msgA.with_content [("a", Val.vint 1)] "w-1" 500).parent_id = some msgA.message_id ∧
      (msgA.with_content [("a", Val.vint 1)] "w-1" 500).type = msgA.type ∧
      (msgA.with_content [("a", Val.vint 1)] "w-1" 500).context_id = msgA.context_id ∧
      (msgA.with_content [("a", Val.vint 1)] "w-1" 500).thread_id = msgA.thread_id ∧
      (msgA.with_content [("a", Val.vint 1)] "w-1" 500).priority = msgA.priority ∧
      (msgA.with_content [("a", Val.vint 1)] "w-1" 500).ttl = msgA.ttl ∧
      (msgA.with_content [("a", Val.vint 1)] "w-1" 500).metadata = msgA.metadata) :=
  ⟨by decide, with_content_spec msgA [("a", Val.vint 1)] "w-1" 500 "a" (by decide)⟩

/-- C9: `from_record` mutates its argument — `data.pop("type")` removes
the `type` key from the caller's mapping, so after one successful
round-trip deserialization the mapping no longer contains its kind, and a
second `from_record` call on the same mapping fails (with `KeyError`)
rather than returning an equal Message. -/
theorem from_dict_mutates_input (m : Message) (now now2 : Int) (fid fid2 : String) :
    (Message.from_dict (Message.to_dict m) now fid).2.type = none ∧
    (Message.from_dict ((Message.from_dict (Message.to_dict m) now fid).2) now2 fid2).1
      = Except.error PyErr.keyError := by
  constructor <;>
    simp [Message.to_dict, Message.from_dict, MessageType.fromName_name]

/-- C10: for every message with a `time_to_live` set, the reply built by
`create_reply` has NO `time_to_live` (the constructor call omits `ttl`, so
the dataclass default `None` applies), while priority, context_id,
thread_id and metadata are propagated from the original. -/
theorem create_reply_drops_ttl (m : Message) (t : MessageType)
    (c : List (String × Val)) (fid : String) (fts : Int) (d : Int)
    (_httl : m.ttl = some d) :
    (m.create_reply t c fid fts).ttl = none ∧
    (m.create_reply t c fid fts).priority = m.priority ∧
    (m.create_reply t c fid fts).context_id = m.context_id ∧
    (m.create_reply t c fid fts).thread_id = m.thread_id ∧
    (m.create_reply t c fid fts).metadata = m.metadata :=
  ⟨rfl, rfl, rfl, rfl, rfl⟩

/-- C10 witness: the theorem applied to `msgA`, whose ttl is 60. -/
theorem create_reply_drops_ttl_witness :
    msgA.ttl = some 60 ∧
    ((msgA.create_reply MessageType.TRANSCRIPTION_COMPLETE [] "r-1" 400).ttl = none ∧
      (msgA.create_reply MessageType.TRANSCRIPTION_COMPLETE [] "r-1" 400).priority = msgA.priority ∧
      (msgA.create_reply MessageType.TRANSCRIPTION_COMPLETE [] "r-1" 400).context_id = msgA.context_id ∧
      (msgA.create_reply MessageType.TRANSCRIPTION_COMPLETE [] "r-1" 400).thread_id = msgA.thread_id ∧
      (msgA.create_reply MessageType.TRANSCRIPTION_COMPLETE [] "r-1" 400).metadata = msgA.metadata) :=
  ⟨rfl, create_reply_drops_ttl msgA MessageType.TRANSCRIPTION_COMPLETE [] "r-1" 400 60 rfl⟩
